import Mathlib

/-!
Verification of the theme palette tables and site configuration record of
the blog repository (docusaurus.config.ts). The palette tables and the
configuration record are transcribed from the source; the palette resolver
and the configuration validation belong to the external generator and are
modelled from the specification, as marked on their doc comments.
-/

/-- A style object as written in the source tables: every field is optional.
The source entries use color, fontStyle, fontWeight, opacity and cursor;
the plain objects use color and backgroundColor. -/
structure StyleObj where
  color : Option String := none
  backgroundColor : Option String := none
  fontStyle : Option String := none
  fontWeight : Option String := none
  opacity : Option ℚ := none
  cursor : Option String := none
deriving DecidableEq, Repr

/-- One entry of a palette style table: a list of token categories and the
style applied to them. -/
structure PaletteEntry where
  types : List String
  style : StyleObj
deriving DecidableEq, Repr

/-- A Prism theme palette: a plain style and an ordered list of entries. -/
structure Palette where
  plain : StyleObj
  styles : List PaletteEntry
deriving DecidableEq, Repr

/-- Solarized Light palette, transcribed from docusaurus.config.ts. -/
def solarizedLight : Palette :=
  { plain := { color := some "#657b83", backgroundColor := some "#eee8d5" }
    styles :=
      [ { types := ["comment", "prolog", "doctype", "cdata"]
          style := { color := some "#93a1a1", fontStyle := some "italic" } }
      , { types := ["punctuation"]
          style := { color := some "#586e75" } }
      , { types := ["namespace"]
          style := { opacity := some (7/10) } }
      , { types := ["property", "tag", "boolean", "number", "constant", "symbol"]
          style := { color := some "#268bd2" } }
      , { types := ["attr-name", "string", "char", "builtin", "url"]
          style := { color := some "#2aa198" } }
      , { types := ["entity"]
          style := { color := some "#2aa198", cursor := some "help" } }
      , { types := ["selector", "inserted"]
          style := { color := some "#859900" } }
      , { types := ["atrule", "attr-value", "keyword"]
          style := { color := some "#859900" } }
      , { types := ["function", "class-name"]
          style := { color := some "#b58900" } }
      , { types := ["regex", "important", "variable"]
          style := { color := some "#cb4b16" } }
      , { types := ["deleted"]
          style := { color := some "#dc322f" } }
      , { types := ["important", "bold"]
          style := { fontWeight := some "bold" } }
      , { types := ["italic"]
          style := { fontStyle := some "italic" } }
      ] }

/-- Solarized Dark palette, transcribed from docusaurus.config.ts. -/
def solarizedDark : Palette :=
  { plain := { color := some "#839496", backgroundColor := some "#073642" }
    styles :=
      [ { types := ["comment", "prolog", "doctype", "cdata"]
          style := { color := some "#586e75", fontStyle := some "italic" } }
      , { types := ["punctuation"]
          style := { color := some "#93a1a1" } }
      , { types := ["namespace"]
          style := { opacity := some (7/10) } }
      , { types := ["property", "tag", "boolean", "number", "constant", "symbol"]
          style := { color := some "#268bd2" } }
      , { types := ["attr-name", "string", "char", "builtin", "url"]
          style := { color := some "#2aa198" } }
      , { types := ["entity"]
          style := { color := some "#2aa198", cursor := some "help" } }
      , { types := ["selector", "inserted"]
          style := { color := some "#859900" } }
      , { types := ["atrule", "attr-value", "keyword"]
          style := { color := some "#859900" } }
      , { types := ["function", "class-name"]
          style := { color := some "#b58900" } }
      , { types := ["regex", "important", "variable"]
          style := { color := some "#cb4b16" } }
      , { types := ["deleted"]
          style := { color := some "#dc322f" } }
      , { types := ["important", "bold"]
          style := { fontWeight := some "bold" } }
      , { types := ["italic"]
          style := { fontStyle := some "italic" } }
      ] }

/-- The two color modes an external color-mode switch selects between. -/
inductive Mode where
  | light
  | dark
deriving DecidableEq, Repr

/-- The palette active in a given mode. -/
def paletteOf : Mode → Palette
  | Mode.light => solarizedLight
  | Mode.dark => solarizedDark

/-- Modelled from the spec: the palette resolver of the consuming
highlighter is not part of this repository (the repository only supplies
the palette tables). The spec gives its contract: the first entry in
declaration order whose category set contains the token category wins, and
unknown categories fall back to the plain style, raising no error. -/
def resolve (p : Palette) (category : String) : StyleObj :=
  match p.styles.find? (fun e => decide (category ∈ e.types)) with
  | some e => e.style
  | none => p.plain

/-- Resolve a category against the palette active in the given mode. -/
def resolveMode (m : Mode) (category : String) : StyleObj :=
  resolve (paletteOf m) category

/-- All token categories mentioned by a palette, in declaration order. -/
def paletteCategories (p : Palette) : List String :=
  (p.styles.map (fun e => e.types)).flatten

/-- Whether a character is a hexadecimal digit. -/
def isHexDigitChar (c : Char) : Bool :=
  (decide ('0' ≤ c) && decide (c ≤ '9')) ||
  (decide ('a' ≤ c) && decide (c ≤ 'f')) ||
  (decide ('A' ≤ c) && decide (c ≤ 'F'))

/-- Whether a string is a syntactically valid hex color of the form used in
the tables: a hash sign followed by six hexadecimal digits. -/
def isValidHexColor (s : String) : Bool :=
  match s.toList with
  | '#' :: rest => decide (rest.length = 6) && rest.all isHexDigitChar
  | _ => false

/-- The condition the spec claims of every palette entry: all category
strings non-empty, the style has a color field holding a valid hex color,
and the style carries only the TokenStyle-shape fields (color, optional
italic fontStyle, optional bold fontWeight, optional numeric opacity) —
so no backgroundColor and no cursor. -/
def claimedEntryOK (e : PaletteEntry) : Bool :=
  e.types.all (fun t => !t.isEmpty) &&
  (match e.style.color with
   | some c => isValidHexColor c
   | none => false) &&
  (e.style.fontStyle == none || e.style.fontStyle == some "italic") &&
  (e.style.fontWeight == none || e.style.fontWeight == some "bold") &&
  e.style.backgroundColor == none &&
  e.style.cursor == none

/-- The condition the palette entries actually satisfy: all category
strings non-empty; a color field, when present, holds a valid hex color;
fontStyle, when present, is italic; fontWeight, when present, is bold; no
entry carries backgroundColor; the only field outside the TokenStyle shape
is the cursor help field carried by the entity entries. -/
def amendedEntryOK (e : PaletteEntry) : Bool :=
  e.types.all (fun t => !t.isEmpty) &&
  (match e.style.color with
   | some c => isValidHexColor c
   | none => true) &&
  (e.style.fontStyle == none || e.style.fontStyle == some "italic") &&
  (e.style.fontWeight == none || e.style.fontWeight == some "bold") &&
  e.style.backgroundColor == none &&
  (e.style.cursor == none ||
    (e.style.cursor == some "help" && e.types == ["entity"]))

/-- The broken-link policy enum of the site configuration. -/
inductive BrokenLinkPolicy where
  | ignore
  | warn
  | throw
deriving DecidableEq, Repr

/-- The i18n sub-record of the site configuration. -/
structure I18nConfig where
  defaultLocale : String
  locales : List String
deriving DecidableEq, Repr

/-- The site configuration record, transcribed from docusaurus.config.ts
(the fields the claims are about). -/
structure SiteConfig where
  title : String
  tagline : String
  favicon : String
  url : String
  baseUrl : String
  onBrokenLinks : BrokenLinkPolicy
  i18n : I18nConfig
deriving DecidableEq, Repr

/-- The configuration record supplied by this repository, transcribed from
docusaurus.config.ts. -/
def config : SiteConfig :=
  { title := "Alex Hart"
    tagline := "Android Developer"
    favicon := "img/favicon.ico"
    url := "https://your-docusaurus-site.example.com"
    baseUrl := "/"
    onBrokenLinks := BrokenLinkPolicy.throw
    i18n := { defaultLocale := "en", locales := ["en"] } }

/-- A raw configuration as seen by the validating generator: the required
identity fields may each be absent. -/
structure RawSiteConfig where
  title : Option String
  url : Option String
  baseUrl : Option String
deriving DecidableEq, Repr

/-- Modelled from the spec: the external generator validates the
configuration at process start and construction fails fast when any of the
required fields title, url or baseUrl is absent. The validation logic is
the generator's, not code of this repository; only its contract is given
by the spec. -/
def validateSiteConfig (r : RawSiteConfig) : Option (String × String × String) :=
  match r.title, r.url, r.baseUrl with
  | some t, some u, some b => some (t, u, b)
  | _, _, _ => none

/-- The raw view of the configuration record this repository supplies: all
three required fields are present. -/
def repoRawConfig : RawSiteConfig :=
  { title := some config.title
    url := some config.url
    baseUrl := some config.baseUrl }

/-- If the element at index i satisfies the predicate and no earlier
element does, then find? returns exactly that element. -/
theorem find?_eq_some_of_first {α : Type} (p : α → Bool) :
    ∀ (l : List α) (i : Nat) (h : i < l.length),
      p (l.get ⟨i, h⟩) = true →
      (∀ j (hj : j < l.length), j < i → p (l.get ⟨j, hj⟩) = false) →
      l.find? p = some (l.get ⟨i, h⟩) := by
  intro l
  induction l with
  | nil => intro i h; exact absurd h (Nat.not_lt_zero i)
  | cons a tl ih =>
    intro i h hp hfirst
    cases i with
    | zero =>
      exact List.find?_cons_of_pos tl hp
    | succ k =>
      have ha : p a = false :=
        hfirst 0 (Nat.succ_pos tl.length) (Nat.succ_pos k)
      rw [List.find?_cons_of_neg tl (by simp [ha])]
      exact ih k (Nat.lt_of_succ_lt_succ h) hp
        (fun j hj hji =>
          hfirst (j + 1) (Nat.succ_lt_succ hj) (Nat.succ_lt_succ hji))

/-- C1: for every token category string and either palette, the resolver
returns the style of the first PaletteEntry in declaration order whose
category set contains that category; later entries whose sets also contain
the category contribute nothing (first match wins, no merge). -/
theorem resolve_first_match_wins (m : Mode) (c : String) (i : Nat)
    (h : i < (paletteOf m).styles.length)
    (hc : c ∈ ((paletteOf m).styles.get ⟨i, h⟩).types)
    (hfirst : ∀ j (hj : j < (paletteOf m).styles.length), j < i →
      c ∉ ((paletteOf m).styles.get ⟨j, hj⟩).types) :
    resolveMode m c = ((paletteOf m).styles.get ⟨i, h⟩).style := by
  have hf := find?_eq_some_of_first (fun e => decide (c ∈ e.types))
    (paletteOf m).styles i h (by simpa using hc)
    (fun j hj hji => by simpa using hfirst j hj hji)
  unfold resolveMode resolve
  rw [hf]

/-- Witness for C1: the category punctuation appears first at index 1 of
the light palette and resolves to the style declared there. -/
theorem resolve_first_match_wins_witness :
    resolveMode Mode.light "punctuation" =
      ((paletteOf Mode.light).styles.get ⟨1, by decide⟩).style :=
  resolve_first_match_wins Mode.light "punctuation" 1 (by decide) (by decide)
    (by decide)

/-- C2: a category contained in no PaletteEntry category set resolves to
the active palette plain style (plainColor and plainBackground, no style
attributes) and no error is raised; in particular the unknown category of
the spec example resolves to the light plainColor. -/
theorem resolve_unknown_fallback (m : Mode) (c : String)
    (h : ∀ e ∈ (paletteOf m).styles, c ∉ e.types) :
    resolveMode m c = (paletteOf m).plain ∧
      (resolveMode Mode.light "totally-unknown-category").color =
        some "#657b83" := by
  constructor
  · have hf : (paletteOf m).styles.find? (fun e => decide (c ∈ e.types))
        = none := by
      rw [List.find?_eq_none]
      intro e he
      simpa using h e he
    unfold resolveMode resolve
    rw [hf]
  · decide

/-- Witness for C2: totally-unknown-category is in no entry of the light
palette and falls back to the light plain style. -/
theorem resolve_unknown_fallback_witness :
    resolveMode Mode.light "totally-unknown-category" =
        (paletteOf Mode.light).plain ∧
      (resolveMode Mode.light "totally-unknown-category").color =
        some "#657b83" :=
  resolve_unknown_fallback Mode.light "totally-unknown-category" (by decide)

/-- C3 counterexample: the claim as stated fails on the palette tables:
the namespace entry (index 2 of the light palette) has no color field at
all, and the entity entry carries a cursor field outside the
TokenStyle shape. -/
theorem palette_entry_claim_counterexample :
    ¬ (∀ e ∈ solarizedLight.styles ++ solarizedDark.styles,
        claimedEntryOK e = true) := by decide

/-- C3 (amended): in both palettes every category string is non-empty;
whenever a style has a color field it is a syntactically valid hex color;
fontStyle is only ever italic and fontWeight only ever bold; no entry
carries a backgroundColor; the only field outside the TokenStyle shape is
cursor help on the entity entries. -/
theorem palette_entries_wellformed :
    ((solarizedLight.styles ++ solarizedDark.styles).all amendedEntryOK)
      = true := by decide

/-- C4: every token category appearing in some entry of the light palette
appears in some entry of the dark palette and vice versa. -/
theorem palette_category_symmetry (c : String) :
    c ∈ paletteCategories solarizedLight ↔
      c ∈ paletteCategories solarizedDark := by
  have h : paletteCategories solarizedLight
      = paletteCategories solarizedDark := by decide
  rw [h]

/-- C5: keyword resolves to exactly the color 859900 hex style in both the
light and the dark palette; the keyword hue is identical across modes. -/
theorem resolve_keyword_same_hue :
    resolveMode Mode.light "keyword" = { color := some "#859900" } ∧
      resolveMode Mode.dark "keyword" = { color := some "#859900" } := by
  decide

/-- C6: palette resolution is deterministic: two resolver calls with equal
category and mode arguments yield identical TokenStyle results, no hidden
state influencing the outcome. -/
theorem resolve_deterministic (c d : String) (m n : Mode)
    (hc : c = d) (hm : m = n) :
    resolveMode m c = resolveMode n d := by
  rw [hc, hm]

/-- Witness for C6: two identical keyword light calls agree. -/
theorem resolve_deterministic_witness :
    resolveMode Mode.light "keyword" = resolveMode Mode.light "keyword" :=
  resolve_deterministic "keyword" "keyword" Mode.light Mode.light rfl rfl

/-- C7: the broken-link policy of the configuration record is the value
that fails the build (throw), not a value that degrades silently. -/
theorem onBrokenLinks_is_throw :
    config.onBrokenLinks = BrokenLinkPolicy.throw ∧
      config.onBrokenLinks ≠ BrokenLinkPolicy.ignore ∧
      config.onBrokenLinks ≠ BrokenLinkPolicy.warn := by decide

/-- C8: validation fails fast whenever any of the required fields title,
url or baseUrl is absent, and the configuration record supplied by this
repository has all three, so its construction succeeds. -/
theorem siteConfig_requires_identity_fields :
    (∀ r : RawSiteConfig,
        (r.title = none ∨ r.url = none ∨ r.baseUrl = none) →
        validateSiteConfig r = none) ∧
      validateSiteConfig repoRawConfig =
        some (config.title, config.url, config.baseUrl) := by
  constructor
  · intro r hr
    rcases r with ⟨t, u, b⟩
    cases t <;> cases u <;> cases b <;> simp_all [validateSiteConfig]
  · rfl

/-- Witness for C8: a raw configuration missing its title is rejected. -/
theorem siteConfig_requires_identity_fields_witness :
    validateSiteConfig
        { title := none, url := some "u", baseUrl := some "b" } = none :=
  siteConfig_requires_identity_fields.1
    { title := none, url := some "u", baseUrl := some "b" } (Or.inl rfl)

/-- C9: in both palettes exactly two entries contain the category
important, the earlier styled with the cb4b16 color and the later with
bold fontWeight; resolution of important returns the earlier color style
in both modes, never the bold weight, and the later entry is reached via
the category bold. -/
theorem resolve_important_first_entry_wins :
    ((solarizedLight.styles.filter
          (fun e => decide ("important" ∈ e.types))).map
        (fun e => e.style) =
      [{ color := some "#cb4b16" }, { fontWeight := some "bold" }]) ∧
    ((solarizedDark.styles.filter
          (fun e => decide ("important" ∈ e.types))).map
        (fun e => e.style) =
      [{ color := some "#cb4b16" }, { fontWeight := some "bold" }]) ∧
    resolveMode Mode.light "important" = { color := some "#cb4b16" } ∧
    resolveMode Mode.dark "important" = { color := some "#cb4b16" } ∧
    (resolveMode Mode.light "important").fontWeight = none ∧
    (resolveMode Mode.dark "important").fontWeight = none ∧
    resolveMode Mode.light "bold" = { fontWeight := some "bold" } ∧
    resolveMode Mode.dark "bold" = { fontWeight := some "bold" } := by
  decide

/-- C10: the default locale of the i18n sub-record is a member of the
declared locales list. -/
theorem defaultLocale_mem_locales :
    config.i18n.defaultLocale ∈ config.i18n.locales := by decide

